import Mathlib

/-!
Verification of the at32f4xx flash driver (src/src/flash/nor/at32f4xx.c).

The development shallowly embeds the driver in Lean. Register-level
interaction with the target is modelled by an oracle that supplies, for
the n-th transport operation issued, a result code and (for reads) the
value read. Each embedded function returns a transaction record holding
the OpenOCD-style result code, the next oracle position, the trace of
transport events it issued, and the updated driver state (the in-memory
user-system-data record and the is-erased bookkeeping of the sector
array). Machine integers are Nat with explicit reduction mod 2 ^ 32 at
the points where the C code can wrap.
-/

namespace At32

/-- OpenOCD result codes used by the driver (values from the OpenOCD
headers; only their distinctness matters here). -/
def ERROR_OK : Int := 0

def ERROR_FAIL : Int := -4

def ERROR_TARGET_NOT_HALTED : Int := -304

def ERROR_TARGET_RESOURCE_NOT_AVAILABLE : Int := -308

def ERROR_FLASH_OPERATION_FAILED : Int := -902

def ERROR_FLASH_DST_BREAKS_ALIGNMENT : Int := -903

/-- Flash unlock keys. -/
def KEY1 : Nat := 0x45670123

def KEY2 : Nat := 0xCDEF89AB

/-- Flash erase and write timeout values. -/
def FLASH_WRITE_TIMEOUT : Nat := 100

def FLASH_SECTOR_ERASE_TIMEOUT : Nat := 1000

def FLASH_MASS_ERASE_TIMEOUT : Nat := 120000

def BANK1_BASE_ADDR : Nat := 0x08000000

def SPIM_BASE_ADDR : Nat := 0x08400000

/-- Embedded Flash Controller register offsets. -/
def EFC_PSR : Nat := 0x00

def EFC_UNLOCK : Nat := 0x04

def EFC_USD_UNLOCK : Nat := 0x08

def EFC_STS : Nat := 0x0C

def EFC_CTRL : Nat := 0x10

def EFC_ADDR : Nat := 0x14

def EFC_USD : Nat := 0x1C

def EFC_EPPS : Nat := 0x20

/-- Flash ctrl register bits. -/
def EFCCTRL_FPRGM : Nat := 1

def EFCCTRL_SECERS : Nat := 2

def EFCCTRL_BANKERS : Nat := 4

def EFCCTRL_USDPRGM : Nat := 16

def EFCCTRL_USDERS : Nat := 32

def EFCCTRL_ERSTR : Nat := 64

def EFCCTRL_OPLK : Nat := 128

def EFCCTRL_USDULKS : Nat := 512

/-- Flash sts register bits. -/
def EFCSTS_OBF : Nat := 1

def EFCSTS_PRGMERR : Nat := 4

def EFCSTS_EPPERR : Nat := 16

def EFCSTS_ODF : Nat := 32

def U32 : Nat := 4294967296

/-- Subtraction of uint32 values, wrapping mod 2 ^ 32 as in C. -/
def u32sub (a b : Nat) : Nat := (a + (U32 - b % U32)) % U32

/-- Value of n - 1 in uint32 arithmetic (wraps to 0xFFFFFFFF at 0). -/
def u32pred (n : Nat) : Nat := (n + (U32 - 1)) % U32

/-- Reduction of a signed int expression to the uint32 it is stored as. -/
def i32u (x : Int) : Nat := (x % (U32 : Int)).toNat

/-- Per-family register layout descriptor (struct mcu_type_info). -/
structure McuTypeInfo where
  flash_reg : Nat
  usd_addr : Nat
  name : String
deriving DecidableEq

def at32f403 : McuTypeInfo := { flash_reg := 0x40022000, usd_addr := 0x1FFFF800, name := "AT32F403" }

def at32f413 : McuTypeInfo := { flash_reg := 0x40022000, usd_addr := 0x1FFFF800, name := "AT32F413" }

def at32f415 : McuTypeInfo := { flash_reg := 0x40022000, usd_addr := 0x1FFFF800, name := "AT32F415" }

def at32f403a : McuTypeInfo := { flash_reg := 0x40022000, usd_addr := 0x1FFFF800, name := "AT32F403A" }

def at32f407 : McuTypeInfo := { flash_reg := 0x40022000, usd_addr := 0x1FFFF800, name := "AT32F407" }

def at32f421 : McuTypeInfo := { flash_reg := 0x40022000, usd_addr := 0x1FFFF800, name := "AT32F421" }

def at32f435 : McuTypeInfo := { flash_reg := 0x40023C00, usd_addr := 0x1FFFC000, name := "AT32F435" }

def at32f437 : McuTypeInfo := { flash_reg := 0x40023C00, usd_addr := 0x1FFFC000, name := "AT32F437" }

def at32f425 : McuTypeInfo := { flash_reg := 0x40022000, usd_addr := 0x1FFFF800, name := "AT32F425" }

def at32l021 : McuTypeInfo := { flash_reg := 0x40022000, usd_addr := 0x1FFFF800, name := "AT32L021" }

def at32wb415 : McuTypeInfo := { flash_reg := 0x40022000, usd_addr := 0x1FFFF800, name := "AT32WB415" }

def at32f423 : McuTypeInfo := { flash_reg := 0x40023C00, usd_addr := 0x1FFFF800, name := "AT32F423" }

/-- Catalog entry (struct artery_chip). -/
structure ArteryChip where
  pid : Nat
  flash_size_kb : Nat
  sector_size : Nat
  type : McuTypeInfo
  suffix : String
deriving DecidableEq

/-- The known_artery_chips table, transcribed from the source (the C
sentinel terminator entry is represented by the end of the list). -/
def mkChip (pid kb sz : Nat) (t : McuTypeInfo) (s : String) : ArteryChip :=
  { pid := pid, flash_size_kb := kb, sector_size := sz, type := t, suffix := s }

def known_artery_chips : List ArteryChip := [
mkChip 0x70050242 256 2048 at32f403a "CCT7",
mkChip 0x70050243 256 2048 at32f403a "CCU7",
mkChip 0x700502CF 512 2048 at32f403a "CET7",
mkChip 0x700502D0 512 2048 at32f403a "CEU7",
mkChip 0x70050346 1024 2048 at32f403a "CGT7",
mkChip 0x70050347 1024 2048 at32f403a "CGU7",
mkChip 0x70050241 256 2048 at32f403a "RCT7",
mkChip 0x700502CE 512 2048 at32f403a "RET7",
mkChip 0x70050345 1024 2048 at32f403a "RGT7",
mkChip 0x70050240 256 2048 at32f403a "VCT7",
mkChip 0x700502CD 512 2048 at32f403a "VET7",
mkChip 0x70050344 1024 2048 at32f403a "VGT7",
mkChip 0xF0050355 1024 2048 at32f403a "VGW",
mkChip 0x700301CF 128 1024 at32f403 "CBT6",
mkChip 0x70050243 256 2048 at32f403 "CCT6",
mkChip 0x7005024E 256 2048 at32f403 "CCU6",
mkChip 0x700502CB 512 2048 at32f403 "CET6",
mkChip 0x700502CD 512 2048 at32f403 "CEU6",
mkChip 0x70050347 1024 2048 at32f403 "CGT6",
mkChip 0x7005034C 1024 2048 at32f403 "CGU6",
mkChip 0x70050242 256 2048 at32f403 "RCT6",
mkChip 0x700502CA 512 2048 at32f403 "RET6",
mkChip 0x70050346 1024 2048 at32f403 "RGT6",
mkChip 0x70050241 256 2048 at32f403 "VCT6",
mkChip 0x700502C9 512 2048 at32f403 "VET6",
mkChip 0x70050345 1024 2048 at32f403 "VGT6",
mkChip 0x70050240 256 2048 at32f403 "ZCT6",
mkChip 0x700502C8 512 2048 at32f403 "ZET6",
mkChip 0x70050344 1024 2048 at32f403 "ZGT6",
mkChip 0x70050254 256 2048 at32f407 "AVCT7",
mkChip 0x70050353 1024 2048 at32f407 "AVGT7",
mkChip 0x7005024A 256 2048 at32f407 "RCT7",
mkChip 0x700502D2 512 2048 at32f407 "RET7",
mkChip 0x7005034C 1024 2048 at32f407 "RGT7",
mkChip 0x70050249 256 2048 at32f407 "VCT7",
mkChip 0x700502D1 512 2048 at32f407 "VET7",
mkChip 0x7005034B 1024 2048 at32f407 "VGT7",
mkChip 0x70030106 64 1024 at32f413 "C8T7",
mkChip 0x700301C3 128 1024 at32f413 "CBT7",
mkChip 0x700301CA 128 1024 at32f413 "CBU7",
mkChip 0x70030242 256 2048 at32f413 "CCT7",
mkChip 0x70030247 256 2048 at32f413 "CCU7",
mkChip 0x700301C5 128 1024 at32f413 "KBU7-4",
mkChip 0x70030244 256 2048 at32f413 "KCU7-4",
mkChip 0x700301C1 128 1024 at32f413 "RBT7",
mkChip 0x70030240 256 2048 at32f413 "RCT7",
mkChip 0x700301CB 128 1024 at32f413 "TBU7",
mkChip 0x70030109 64 1024 at32f415 "C8T7",
mkChip 0x700301C5 128 1024 at32f415 "CBT7",
mkChip 0x700301CD 128 1024 at32f415 "CBU7",
mkChip 0x70030241 256 2048 at32f415 "CCT7",
mkChip 0x7003024C 256 2048 at32f415 "CCU7",
mkChip 0x7003010A 64 1024 at32f415 "K8U7-4",
mkChip 0x700301C6 128 1024 at32f415 "KBU7-4",
mkChip 0x70030242 256 2048 at32f415 "KCU7-4",
mkChip 0x7003010B 64 1024 at32f415 "R8T7-7",
mkChip 0x70030108 64 1024 at32f415 "R8T7",
mkChip 0x700301C7 128 1024 at32f415 "RBT7-7",
mkChip 0x700301C4 128 1024 at32f415 "RBT7",
mkChip 0x700301CF 128 1024 at32f415 "RBW",
mkChip 0x70030243 256 2048 at32f415 "RCT7-7",
mkChip 0x70030240 256 2048 at32f415 "RCT7",
mkChip 0x7003024E 256 2048 at32f415 "RCW",
mkChip 0x5001000C 16 1024 at32f421 "C4T7",
mkChip 0x50020086 32 1024 at32f421 "C6T7",
mkChip 0x50020100 64 1024 at32f421 "C8T7",
mkChip 0xD0020100 64 1024 at32f421 "C8W-YY",
mkChip 0x50020117 64 1024 at32f421 "C8W",
mkChip 0x50010011 16 1024 at32f421 "F4P7",
mkChip 0x50010010 16 1024 at32f421 "F4U7",
mkChip 0x5002008B 32 1024 at32f421 "F6P7",
mkChip 0x5002008A 32 1024 at32f421 "F6U7",
mkChip 0x50020105 64 1024 at32f421 "F8P7",
mkChip 0x50020104 64 1024 at32f421 "F8U7",
mkChip 0x50010014 16 1024 at32f421 "G4U7",
mkChip 0x50020093 32 1024 at32f421 "G6U7",
mkChip 0x50020112 64 1024 at32f421 "G8U7",
mkChip 0x5001000D 16 1024 at32f421 "K4T7",
mkChip 0x5001000F 16 1024 at32f421 "K4U7-4",
mkChip 0x5001000E 16 1024 at32f421 "K4U7",
mkChip 0x50020087 32 1024 at32f421 "K6T7",
mkChip 0x50020089 32 1024 at32f421 "K6U7-4",
mkChip 0x50020088 32 1024 at32f421 "K6U7",
mkChip 0x50020101 64 1024 at32f421 "K8T7",
mkChip 0x50020103 64 1024 at32f421 "K8U7-4",
mkChip 0x50020102 64 1024 at32f421 "K8U7",
mkChip 0x50010016 16 1024 at32f421 "PF4P7",
mkChip 0x50020115 64 1024 at32f421 "PF8P7",
mkChip 0x7003210B 64 1024 at32f423 "C8T7",
mkChip 0x7003210E 64 1024 at32f423 "C8U7",
mkChip 0x700A21CA 128 1024 at32f423 "CBT7",
mkChip 0x700A21CD 128 1024 at32f423 "CBU7",
mkChip 0x700A3249 256 2048 at32f423 "CCT7",
mkChip 0x700A324C 256 2048 at32f423 "CCU7",
mkChip 0x70032115 64 1024 at32f423 "K8U7-4",
mkChip 0x700A21D4 128 1024 at32f423 "KBU7-4",
mkChip 0x700A3253 256 2048 at32f423 "KCU7-4",
mkChip 0x70032108 64 1024 at32f423 "R8T7-7",
mkChip 0x70032105 64 1024 at32f423 "R8T7",
mkChip 0x700A21C7 128 1024 at32f423 "RBT7-7",
mkChip 0x700A21C4 128 1024 at32f423 "RBT7",
mkChip 0x700A3246 256 2048 at32f423 "RCT7-7",
mkChip 0x700A3243 256 2048 at32f423 "RCT7",
mkChip 0x70032112 64 1024 at32f423 "T8U7",
mkChip 0x700A21D1 128 1024 at32f423 "TBU7",
mkChip 0x700A3250 256 2048 at32f423 "TCU7",
mkChip 0x70032102 64 1024 at32f423 "V8T7",
mkChip 0x700A21C1 128 1024 at32f423 "VBT7",
mkChip 0x700A3240 256 2048 at32f423 "VCT7",
mkChip 0x50092087 32 1024 at32f425 "C6T7",
mkChip 0x5009208A 32 1024 at32f425 "C6U7",
mkChip 0x50092106 64 1024 at32f425 "C8T7",
mkChip 0x50092109 64 1024 at32f425 "C8U7",
mkChip 0x50092093 32 1024 at32f425 "F6P7",
mkChip 0x50092112 64 1024 at32f425 "F8P7",
mkChip 0x50092096 32 1024 at32f425 "G6U7",
mkChip 0x50092115 64 1024 at32f425 "G8U7",
mkChip 0x5009208D 32 1024 at32f425 "K6T7",
mkChip 0x50092090 32 1024 at32f425 "K6U7-4",
mkChip 0x5009210C 64 1024 at32f425 "K8T7",
mkChip 0x5009210F 64 1024 at32f425 "K8U7-4",
mkChip 0x50092084 32 1024 at32f425 "R6T7-7",
mkChip 0x50092081 32 1024 at32f425 "R6T7",
mkChip 0x50092103 64 1024 at32f425 "R8T7-7",
mkChip 0x50092100 64 1024 at32f425 "R8T7",
mkChip 0x7008449A 192 4096 at32f435 "CCT7-W",
mkChip 0x7008324B 256 2048 at32f435 "CCT7",
mkChip 0x7008449D 192 4096 at32f435 "CCU7-W",
mkChip 0x7008324E 256 2048 at32f435 "CCU7",
mkChip 0x700844D9 960 4096 at32f435 "CGT7-W",
mkChip 0x7008334A 1024 2048 at32f435 "CGT7",
mkChip 0x700844DC 960 4096 at32f435 "CGU7-W",
mkChip 0x7008334D 1024 2048 at32f435 "CGU7",
mkChip 0x70084558 4032 4096 at32f435 "CMT7-E",
mkChip 0x70084549 4032 4096 at32f435 "CMT7",
mkChip 0x7008455B 4032 4096 at32f435 "CMU7-E",
mkChip 0x7008454C 4032 4096 at32f435 "CMU7",
mkChip 0x70083248 256 2048 at32f435 "RCT7",
mkChip 0x70083347 1024 2048 at32f435 "RGT7",
mkChip 0x70084546 4032 4096 at32f435 "RMT7",
mkChip 0x70083245 256 2048 at32f435 "VCT7",
mkChip 0x70083344 1024 2048 at32f435 "VGT7",
mkChip 0x70084543 4032 4096 at32f435 "VMT7",
mkChip 0x70083242 256 2048 at32f435 "ZCT7",
mkChip 0x70083341 1024 2048 at32f435 "ZGT7",
mkChip 0x70084540 4032 4096 at32f435 "ZMT7",
mkChip 0x70083257 256 2048 at32f437 "RCT7",
mkChip 0x70083356 1024 2048 at32f437 "RGT7",
mkChip 0x70084555 4032 4096 at32f437 "RMT7",
mkChip 0x70083254 256 2048 at32f437 "VCT7",
mkChip 0x70083353 1024 2048 at32f437 "VGT7",
mkChip 0x70084552 4032 4096 at32f437 "VMT7",
mkChip 0x70083251 256 2048 at32f437 "ZCT7",
mkChip 0x70083350 1024 2048 at32f437 "ZGT7",
mkChip 0x7008454F 4032 4096 at32f437 "ZMT7",
mkChip 0x10012006 16 1024 at32l021 "C4T7",
mkChip 0x1001208D 32 1024 at32l021 "C6T7",
mkChip 0x10012114 64 1024 at32l021 "C8T7",
mkChip 0x10012001 16 1024 at32l021 "F4P7",
mkChip 0x10012002 16 1024 at32l021 "F4U7",
mkChip 0x10012088 32 1024 at32l021 "F6P7",
mkChip 0x10012089 32 1024 at32l021 "F6U7",
mkChip 0x1001210F 64 1024 at32l021 "F8P7",
mkChip 0x10012110 64 1024 at32l021 "F8U7",
mkChip 0x10012000 16 1024 at32l021 "G4U7",
mkChip 0x10012087 32 1024 at32l021 "G6U7",
mkChip 0x1001210E 64 1024 at32l021 "G8U7",
mkChip 0x10012005 16 1024 at32l021 "K4T7",
mkChip 0x10012003 16 1024 at32l021 "K4U7-4",
mkChip 0x10012004 16 1024 at32l021 "K4U7",
mkChip 0x1001208C 32 1024 at32l021 "K6T7",
mkChip 0x1001208A 32 1024 at32l021 "K6U7-4",
mkChip 0x1001208B 32 1024 at32l021 "K6U7",
mkChip 0x10012113 64 1024 at32l021 "K8T7",
mkChip 0x10012111 64 1024 at32l021 "K8U7-4",
mkChip 0x10012112 64 1024 at32l021 "K8U7",
mkChip 0x70030250 256 2048 at32wb415 "CCU7-7"]

/-- Exact-match catalog lookup (artery_find_chip_from_id); first match
wins, absence of an entry is the NotFound outcome. -/
def artery_find_chip_from_id (pid : Nat) : Option ArteryChip :=
  known_artery_chips.find? (fun c => c.pid == pid)

/-- One sub-bank descriptor (struct at32_sub_bank). -/
structure SubBank where
  reg_base : Nat
  size : Nat
  num_sectors : Nat
  base : Nat
deriving DecidableEq

/-- Logical bank state relevant to the engine (fields of struct
at32_flash_info together with the flash_bank fields the driver uses:
bank base address, total sector count set at probe time, and the user
system data address). -/
structure Bank where
  base : Nat
  sub0 : SubBank
  sub1 : SubBank
  num_sectors : Nat
  usd_addr : Nat
deriving DecidableEq

/-- Main-flash geometry resolution (at32x_init_main_flash): fails for a
bank address other than BANK1_BASE_ADDR; otherwise sub-bank 0 is sized
at min(total, threshold) where the threshold is 2 MiB for chips above
1024 kB and 512 KiB otherwise, and sub-bank 1 takes the remainder with
a register aperture 0x40 above sub-bank 0. -/
def at32x_init_main_flash (chip : ArteryChip) (bank_addr : Nat) :
    Except Int (SubBank × SubBank) :=
  if bank_addr ≠ BANK1_BASE_ADDR then
    Except.error ERROR_FAIL
  else
    let flash_size := chip.flash_size_kb <<< 10
    let s0size := min flash_size (if 1024 < chip.flash_size_kb then 2 <<< 20 else 512 <<< 10)
    Except.ok
      ({ reg_base := chip.type.flash_reg, size := s0size, num_sectors := 0, base := 0 },
       { reg_base := chip.type.flash_reg + 0x40, size := flash_size - s0size,
         num_sectors := 0, base := 0 })

/-- Completion of geometry resolution (the sub-bank loop at the end of
at32_get_device_info, main-flash path): assigns each sub-bank its base
address and sector count; the running base address advances past a
sub-bank only when that sub-bank is non-empty. -/
def at32_get_device_info (chip : ArteryChip) (bank_base : Nat) :
    Except Int (SubBank × SubBank) :=
  match at32x_init_main_flash chip bank_base with
  | Except.error e => Except.error e
  | Except.ok (s0, s1) =>
    let s0 := { s0 with base := bank_base, num_sectors := s0.size / chip.sector_size }
    let base1 := if s0.size = 0 then bank_base else bank_base + s0.size
    let s1 := { s1 with base := base1, num_sectors := s1.size / chip.sector_size }
    Except.ok (s0, s1)

/-- Probe output: the bank record plus the write-protection block list
(offset and size of each block, as laid out by alloc_block_array). -/
structure ProbeOut where
  bank : Bank
  sector_size : Nat
  prot_blocks : List (Nat × Nat)
deriving DecidableEq

/-- The probe computation (at32x_probe, main-flash path): derives the
global sector count, allocates the sector array (uniform blocks of the
chip sector size, not recorded here beyond the count) and the
write-protection blocks: ceil(flash_size / 4096) blocks of 4096 bytes,
capped at 32, with block 31 resized to (num_pages - 62) * sector_size
in int arithmetic when the cap is met. alloc_block_array itself lives
outside src; it is modelled from the spec as laying out num blocks of
the given size at consecutive offsets starting from the given one. -/
def at32x_probe_geometry (chip : ArteryChip) (bank_base : Nat) :
    Except Int ProbeOut :=
  match at32_get_device_info chip bank_base with
  | Except.error e => Except.error e
  | Except.ok (s0, s1) =>
    let flash_size := chip.flash_size_kb <<< 10
    let secsz := chip.sector_size
    let num_pages := flash_size / secsz
    let nb := min ((flash_size + 4095) / 4096) 32
    let blocks := (List.range nb).map (fun i => (i * 4096, 4096))
    let blocks :=
      if nb = 32 then
        blocks.set 31 (31 * 4096, i32u (((num_pages : Int) - 31 * 2) * (secsz : Int)))
      else blocks
    Except.ok
      { bank := { base := bank_base, sub0 := s0, sub1 := s1,
                  num_sectors := num_pages, usd_addr := chip.type.usd_addr },
        sector_size := secsz,
        prot_blocks := blocks }

/-- Result of one transport operation: the result code returned by the
transport call and, for reads, the value read (0 otherwise). -/
structure TRes where
  ret : Int
  val : Nat

/-- Transport oracle: the behaviour of the n-th transport operation. -/
def Oracle : Type := Nat → TRes

/-- Transport events issued by the driver, in order. Buffer contents are
identified by the position of their first byte in the host-side source
buffer (the C code passes a pointer; pointer arithmetic is index
arithmetic here). -/
inductive Ev where
  | wr32 (addr val : Nat)
  | rd32 (addr : Nat)
  | wr16 (addr b0 b1 : Nat)
  | allocAlgo
  | wrAlgo
  | allocTry (size : Nat)
  | free
  | runAlgo (reg_base pos addr cnt : Nat)
deriving DecidableEq

/-- In-memory user system data record (struct at32_usd_data). -/
structure UsdData where
  fap : Nat
  ssb : Nat
  data : Nat
  protection : Nat
deriving DecidableEq

/-- Mutable driver-visible state threaded through the embedding: the usd
record, the global sector indices whose is_erased flag was set (in write
order), and the is_protected flags of the protection blocks. -/
structure St where
  usd : UsdData
  marks : List Nat
  prot : List Bool
deriving DecidableEq

/-- Result of an embedded driver computation: result code, next oracle
position, value read (for register reads), event trace, updated state. -/
structure Tx where
  ret : Int
  val : Nat
  k : Nat
  tr : List Ev
  st : St
deriving DecidableEq

/-- A 32-bit register or memory write through the transport. -/
def t_wr32 (ora : Oracle) (k : Nat) (st : St) (addr v : Nat) : Tx :=
  { ret := (ora k).ret, val := 0, k := k + 1, tr := [Ev.wr32 addr v], st := st }

/-- A 32-bit read through the transport. -/
def t_rd32 (ora : Oracle) (k : Nat) (st : St) (addr : Nat) : Tx :=
  { ret := (ora k).ret, val := (ora k).val, k := k + 1, tr := [Ev.rd32 addr], st := st }

/-- A 16-bit write through the transport (b0 and b1 are the two bytes of
the half-word, taken from the host-side buffer). -/
def t_wr16 (ora : Oracle) (k : Nat) (st : St) (addr b0 b1 : Nat) : Tx :=
  { ret := (ora k).ret, val := 0, k := k + 1, tr := [Ev.wr16 addr b0 b1], st := st }

/-- Successful no-op outcome (return ERROR_OK). -/
def okTx (k : Nat) (st : St) : Tx :=
  { ret := ERROR_OK, val := 0, k := k, tr := [], st := st }

/-- Failing no-op outcome (return the given code without touching the
target). -/
def errTx (e : Int) (k : Nat) (st : St) : Tx :=
  { ret := e, val := 0, k := k, tr := [], st := st }

/-- The ERR_CHECK sequencing pattern of the source: run the continuation
only when the first step returned ERROR_OK, otherwise propagate the
first failure unchanged. -/
def bindOK (o : Tx) (f : Nat → Nat → St → Tx) : Tx :=
  if o.ret = ERROR_OK then
    let o2 := f o.val o.k o.st
    { o2 with tr := o.tr ++ o2.tr }
  else o

/-- Main-array unlock (at32x_flash_unlock): the two-key sequence written
to the unlock register of the given sub-bank. -/
def at32x_flash_unlock (ora : Oracle) (sb : SubBank) (k : Nat) (st : St) : Tx :=
  bindOK (t_wr32 ora k st (sb.reg_base + EFC_UNLOCK) KEY1) (fun _ k st =>
  t_wr32 ora k st (sb.reg_base + EFC_UNLOCK) KEY2)

/-- Option-byte unlock (at32x_usd_unlock): the two-key sequence written
to the usd unlock register of sub-bank 0. -/
def at32x_usd_unlock (ora : Oracle) (bk : Bank) (k : Nat) (st : St) : Tx :=
  bindOK (t_wr32 ora k st (bk.sub0.reg_base + EFC_USD_UNLOCK) KEY1) (fun _ k st =>
  t_wr32 ora k st (bk.sub0.reg_base + EFC_USD_UNLOCK) KEY2)

/-- Busy-wait loop (at32x_wait_status_busy): polls the status register
until the busy flag clears, failing after timeout further polls; once
busy is clear, a set program-error or protection-error bit is cleared by
a write-one-to-clear store (whose own result is ignored) and reported as
ERROR_FAIL. -/
def at32x_wait_status_busy (ora : Oracle) (sb : SubBank) :
    Nat → Nat → St → Tx
  | timeout, k, st =>
    let r := ora k
    let rdEv := Ev.rd32 (sb.reg_base + EFC_STS)
    if r.ret ≠ ERROR_OK then
      { ret := r.ret, val := 0, k := k + 1, tr := [rdEv], st := st }
    else if r.val &&& EFCSTS_OBF = 0 then
      if r.val &&& (EFCSTS_EPPERR ||| EFCSTS_PRGMERR) ≠ 0 then
        { ret := ERROR_FAIL, val := 0, k := k + 2,
          tr := [rdEv, Ev.wr32 (sb.reg_base + EFC_STS) (EFCSTS_EPPERR ||| EFCSTS_PRGMERR)],
          st := st }
      else
        { ret := ERROR_OK, val := 0, k := k + 1, tr := [rdEv], st := st }
    else
      match timeout with
      | 0 => { ret := ERROR_FAIL, val := 0, k := k + 1, tr := [rdEv], st := st }
      | t + 1 =>
        let rest := at32x_wait_status_busy ora sb t (k + 1) st
        { rest with tr := rdEv :: rest.tr }

/-- Mass erase of one sub-bank (at32x_sub_bank_mass_erase): a zero-size
sub-bank is skipped; otherwise unlock, bank-erase control sequence,
busy wait, then the lock write, every step ERR_CHECK-ed. -/
def at32x_sub_bank_mass_erase (ora : Oracle) (sb : SubBank) (k : Nat) (st : St) : Tx :=
  if sb.size = 0 then okTx k st
  else
    bindOK (at32x_flash_unlock ora sb k st) (fun _ k st =>
    bindOK (t_wr32 ora k st (sb.reg_base + EFC_CTRL) EFCCTRL_BANKERS) (fun _ k st =>
    bindOK (t_wr32 ora k st (sb.reg_base + EFC_CTRL) (EFCCTRL_BANKERS ||| EFCCTRL_ERSTR)) (fun _ k st =>
    bindOK (at32x_wait_status_busy ora sb FLASH_MASS_ERASE_TIMEOUT k st) (fun _ k st =>
    bindOK (t_wr32 ora k st (sb.reg_base + EFC_CTRL) EFCCTRL_OPLK) (fun _ k st =>
    okTx k st)))))

/-- Whole-bank mass erase (at32x_mass_erase): checks the halted state,
then mass-erases each sub-bank in turn; the result code of each
per-sub-bank erase is discarded and the function returns ERROR_OK. -/
def at32x_mass_erase (ora : Oracle) (halted : Bool) (bk : Bank) (k : Nat) (st : St) : Tx :=
  if halted then
    let o0 := at32x_sub_bank_mass_erase ora bk.sub0 k st
    let o1 := at32x_sub_bank_mass_erase ora bk.sub1 o0.k o0.st
    { ret := ERROR_OK, val := 0, k := o1.k, tr := o0.tr ++ o1.tr, st := o1.st }
  else errTx ERROR_TARGET_NOT_HALTED k st

/-- The per-sector loop of at32x_sub_bank_erase: for each sub-bank-local
sector index i in turn, the SECERS control sequence with the sector
address, the busy wait, then bank->sectors[i].is_erased = 1 - the index
used for the bookkeeping is the sub-bank-local i. -/
def at32x_sect_erase_loop (ora : Oracle) (sb : SubBank) (secsz : Nat) :
    Nat → Nat → Nat → St → Tx
  | 0, _, k, st => okTx k st
  | fuel + 1, i, k, st =>
    bindOK (t_wr32 ora k st (sb.reg_base + EFC_CTRL) EFCCTRL_SECERS) (fun _ k st =>
    bindOK (t_wr32 ora k st (sb.reg_base + EFC_ADDR) (sb.base + i * secsz)) (fun _ k st =>
    bindOK (t_wr32 ora k st (sb.reg_base + EFC_CTRL) (EFCCTRL_SECERS ||| EFCCTRL_ERSTR)) (fun _ k st =>
    bindOK (at32x_wait_status_busy ora sb FLASH_SECTOR_ERASE_TIMEOUT k st) (fun _ k st =>
    at32x_sect_erase_loop ora sb secsz fuel (i + 1) k
      { st with marks := st.marks ++ [i] }))))

/-- Sector-range erase within one sub-bank (at32x_sub_bank_erase): a
range covering the whole sub-bank short-circuits to the sub-bank mass
erase; otherwise unlock, the per-sector loop, then the ERR_CHECK-ed
lock write. -/
def at32x_sub_bank_erase (ora : Oracle) (sb : SubBank) (first last k : Nat) (st : St) : Tx :=
  let secsz := sb.size / sb.num_sectors
  if first = 0 ∧ last = u32pred sb.num_sectors then
    at32x_sub_bank_mass_erase ora sb k st
  else
    bindOK (at32x_flash_unlock ora sb k st) (fun _ k st =>
    bindOK (at32x_sect_erase_loop ora sb secsz (last + 1 - first) first k st) (fun _ k st =>
    bindOK (t_wr32 ora k st (sb.reg_base + EFC_CTRL) EFCCTRL_OPLK) (fun _ k st =>
    okTx k st)))

/-- The sub-bank walk of at32x_erase: clip the requested range to each
sub-bank in address order, erase the clipped sub-range, stop at the
first failure or when the range is exhausted; index arithmetic is
uint32. -/
def at32x_erase_loop (ora : Oracle) : List SubBank → Nat → Nat → Nat → St → Tx
  | [], _, _, k, st => okTx k st
  | sb :: rest, first, last, k, st =>
    if first < sb.num_sectors then
      let l := min last (u32pred sb.num_sectors)
      let o := at32x_sub_bank_erase ora sb first l k st
      if o.ret ≠ ERROR_OK then o
      else if last = l then o
      else
        let o2 := at32x_erase_loop ora rest 0 (u32sub last sb.num_sectors) o.k o.st
        { o2 with tr := o.tr ++ o2.tr }
    else
      at32x_erase_loop ora rest (first - sb.num_sectors) (u32sub last sb.num_sectors) k st

/-- Sector-range erase entry point (at32x_erase): fails immediately when
the target is not halted; a full-bank range short-circuits to
at32x_mass_erase; otherwise walks the two sub-banks. -/
def at32x_erase (ora : Oracle) (halted : Bool) (bk : Bank) (first last k : Nat) (st : St) : Tx :=
  if halted then
    if first = 0 ∧ last = u32pred bk.num_sectors then
      at32x_mass_erase ora halted bk k st
    else
      at32x_erase_loop ora [bk.sub0, bk.sub1] first last k st
  else errTx ERROR_TARGET_NOT_HALTED k st

/-- The staging-buffer allocation loop of at32x_write_block: try a
16384-byte working area, halving (and keeping 4-byte alignment) on each
failure; at or below a 256-byte floor, free the algorithm area and give
up with the resource-unavailable code. The first argument is recursion
fuel; the entry point passes the initial buffer size, which strictly
exceeds the number of halvings the loop can perform, so the
fuel-exhausted branch is unreachable. -/
def at32x_alloc_loop (ora : Oracle) : Nat → Nat → St → Nat → Tx
  | 0, k, st, _ =>
    { ret := ERROR_TARGET_RESOURCE_NOT_AVAILABLE, val := 0, k := k, tr := [], st := st }
  | fuel + 1, k, st, bs =>
    let r := ora k
    if r.ret = ERROR_OK then
      { ret := ERROR_OK, val := bs, k := k + 1, tr := [Ev.allocTry bs], st := st }
    else
      let bs2 := bs / 2 / 4 * 4
      if bs2 ≤ 256 then
        { ret := ERROR_TARGET_RESOURCE_NOT_AVAILABLE, val := 0, k := k + 1,
          tr := [Ev.allocTry bs, Ev.free], st := st }
      else
        let rest := at32x_alloc_loop ora fuel (k + 1) st bs2
        { rest with tr := Ev.allocTry bs :: rest.tr }

/-- Block write through the uploaded accelerator (at32x_write_block):
allocate a working area for the algorithm, upload it, allocate the
staging buffer, run the accelerator (its r0 status output is the value
supplied by the oracle), clear and log any program-error or
protection-error bit on a reported operation failure, free both working
areas, and return the accelerator run result. pos is the host-side
index of the first source byte. -/
def at32x_write_block (ora : Oracle) (sb : SubBank) (pos address count k : Nat) (st : St) : Tx :=
  let a := ora k
  if a.ret ≠ ERROR_OK then
    { ret := ERROR_TARGET_RESOURCE_NOT_AVAILABLE, val := 0, k := k + 1,
      tr := [Ev.allocAlgo], st := st }
  else
    let w := ora (k + 1)
    if w.ret ≠ ERROR_OK then
      { ret := w.ret, val := 0, k := k + 2,
        tr := [Ev.allocAlgo, Ev.wrAlgo, Ev.free], st := st }
    else
      let al := at32x_alloc_loop ora 16384 (k + 2) st 16384
      if al.ret ≠ ERROR_OK then
        { al with tr := [Ev.allocAlgo, Ev.wrAlgo] ++ al.tr }
      else
        let r := ora al.k
        let clearTr :=
          (if r.ret = ERROR_FLASH_OPERATION_FAILED ∧ r.val &&& EFCSTS_PRGMERR ≠ 0 then
             [Ev.wr32 (sb.reg_base + EFC_STS) EFCSTS_PRGMERR] else [])
          ++ (if r.ret = ERROR_FLASH_OPERATION_FAILED ∧ r.val &&& EFCSTS_EPPERR ≠ 0 then
             [Ev.wr32 (sb.reg_base + EFC_STS) EFCSTS_EPPERR] else [])
        { ret := r.ret, val := 0, k := al.k + 1 + clearTr.length,
          tr := [Ev.allocAlgo, Ev.wrAlgo] ++ al.tr
               ++ [Ev.runAlgo sb.reg_base pos address count]
               ++ clearTr ++ [Ev.free, Ev.free],
          st := st }

/-- The slow-path loop of at32x_sub_bank_write: one 16-bit write (bytes
taken from the host buffer at the current position) followed by a
5-unit busy wait per remaining half-word, advancing the buffer position
and the destination offset by 2 each iteration. -/
def at32x_fallback_loop (ora : Oracle) (sb : SubBank) (mem : List Nat) :
    Nat → Nat → Nat → Nat → St → Tx
  | 0, _, _, k, st => okTx k st
  | w + 1, pos, offset, k, st =>
    bindOK (t_wr16 ora k st (sb.base + offset) (mem.getD pos 0) (mem.getD (pos + 1) 0)) (fun _ k st =>
    bindOK (at32x_wait_status_busy ora sb 5 k st) (fun _ k st =>
    at32x_fallback_loop ora sb mem w (pos + 2) (offset + 2) k st))

/-- The part of at32x_sub_bank_write before the reset_pg_and_lock label:
unlock, set program mode, attempt the block write, and fall back to the
slow half-word loop exactly when the block write reported that no
working area was available. Any failure jumps to the common lock
postlude with its code. -/
def at32x_sub_bank_write_body (ora : Oracle) (sb : SubBank) (mem : List Nat)
    (pos offset count k : Nat) (st : St) : Tx :=
  let words := count / 2
  bindOK (at32x_flash_unlock ora sb k st) (fun _ k st =>
  bindOK (t_wr32 ora k st (sb.reg_base + EFC_CTRL) EFCCTRL_FPRGM) (fun _ k st =>
  let b := at32x_write_block ora sb pos (sb.base + offset) words k st
  if b.ret = ERROR_TARGET_RESOURCE_NOT_AVAILABLE then
    let f := at32x_fallback_loop ora sb mem words pos offset b.k b.st
    { f with tr := b.tr ++ f.tr }
  else b))

/-- Write of a byte range into one sub-bank (at32x_sub_bank_write): the
body above, then the unconditional lock write at the
reset_pg_and_lock label; an earlier failure code takes precedence over
the result of the lock write. -/
def at32x_sub_bank_write (ora : Oracle) (sb : SubBank) (mem : List Nat)
    (pos offset count k : Nat) (st : St) : Tx :=
  let b := at32x_sub_bank_write_body ora sb mem pos offset count k st
  let l := t_wr32 ora b.k b.st (sb.reg_base + EFC_CTRL) EFCCTRL_OPLK
  { ret := if b.ret = ERROR_OK then l.ret else b.ret, val := 0,
    k := l.k, tr := b.tr ++ l.tr, st := l.st }

/-- The sub-bank walk of at32x_write: for each sub-bank in address
order, when the current offset falls inside it, write
min(count, sub_bank_size) bytes from the host buffer (whose position is
not advanced between sub-banks) and stop on failure or when the count
is exhausted; otherwise step the offset down and continue; count
arithmetics is uint32. -/
def at32x_write_loop (ora : Oracle) (mem : List Nat) :
    List SubBank → Nat → Nat → Nat → Nat → St → Tx
  | [], _, _, _, k, st => okTx k st
  | sb :: rest, pos, offset, count, k, st =>
    if offset < sb.size then
      let c := min count sb.size
      let o := at32x_sub_bank_write ora sb mem pos offset c k st
      if o.ret ≠ ERROR_OK ∨ count = c then o
      else
        let o2 := at32x_write_loop ora mem rest pos 0 (u32sub count sb.size) o.k o.st
        { o2 with tr := o.tr ++ o2.tr }
    else
      at32x_write_loop ora mem rest pos (offset - sb.size) (u32sub count sb.size) k st

/-- Write entry point (at32x_write): fails immediately when the target
is not halted; a 2-byte-misaligned offset is a hard alignment error
before any device access; an odd byte count is handled by copying the
caller buffer into a fresh padded buffer ending in one 0xFF byte (the
caller buffer itself is left untouched) and programming count + 1
bytes; then the sub-bank walk runs from host position 0. -/
def at32x_write (ora : Oracle) (halted : Bool) (bk : Bank) (mem : List Nat)
    (offset count k : Nat) (st : St) : Tx :=
  if halted then
    if offset % 2 = 1 then errTx ERROR_FLASH_DST_BREAKS_ALIGNMENT k st
    else if count % 2 = 1 then
      at32x_write_loop ora (mem.take count ++ [0xff]) [bk.sub0, bk.sub1] 0 offset (count + 1) k st
    else
      at32x_write_loop ora mem [bk.sub0, bk.sub1] 0 offset count k st
  else errTx ERROR_TARGET_NOT_HALTED k st

/-- Read of the four option words (at32x_read_usd_data), unpacking the
interleaved byte/complement pairs into the in-memory usd record; each
read is ERR_CHECK-ed, so a failing read leaves the later fields
unchanged. -/
def at32x_read_usd_data (ora : Oracle) (bk : Bank) (k : Nat) (st : St) : Tx :=
  bindOK (t_rd32 ora k st bk.usd_addr) (fun v k st =>
  let st := { st with usd := { st.usd with fap := v &&& 0xFF, ssb := (v >>> 16) &&& 0xFF } }
  bindOK (t_rd32 ora k st (bk.usd_addr + 4)) (fun v k st =>
  let st := { st with usd := { st.usd with data := ((v >>> 8) &&& 0xFF00) ||| (v &&& 0xFF) } }
  bindOK (t_rd32 ora k st (bk.usd_addr + 8)) (fun v k st =>
  let st := { st with usd := { st.usd with protection := ((v >>> 8) &&& 0xFF00) ||| (v &&& 0xFF) } }
  bindOK (t_rd32 ora k st (bk.usd_addr + 12)) (fun v k st =>
  let st := { st with usd := { st.usd with
    protection := st.usd.protection ||| ((((v >>> 8) &&& 0xFF00) ||| (v &&& 0xFF)) <<< 16) } }
  okTx k st))))

/-- Erase of the user system data page (at32x_erase_usd_data): re-read
the usd record (result ignored), unlock both write paths, the USDERS
control sequence, then the busy wait; every later step ERR_CHECK-ed. -/
def at32x_erase_usd_data (ora : Oracle) (bk : Bank) (k : Nat) (st : St) : Tx :=
  let r := at32x_read_usd_data ora bk k st
  let op := EFCCTRL_USDERS ||| EFCCTRL_USDULKS
  let rest :=
    bindOK (at32x_flash_unlock ora bk.sub0 r.k r.st) (fun _ k st =>
    bindOK (at32x_usd_unlock ora bk k st) (fun _ k st =>
    bindOK (t_wr32 ora k st (bk.sub0.reg_base + EFC_CTRL) op) (fun _ k st =>
    bindOK (t_wr32 ora k st (bk.sub0.reg_base + EFC_CTRL) (op ||| EFCCTRL_ERSTR)) (fun _ k st =>
    bindOK (at32x_wait_status_busy ora bk.sub0 FLASH_SECTOR_ERASE_TIMEOUT k st) (fun _ k st =>
    okTx k st)))))
  { rest with tr := r.tr ++ rest.tr }

/-- Write-back of the usd record (at32x_write_usd_data): unlock both
write paths, set usd program mode, program the 8 half-words of the
record through the block-write path at the usd base address, then the
ERR_CHECK-ed lock write; a block-write failure is returned without the
lock write. -/
def at32x_write_usd_data (ora : Oracle) (bk : Bank) (k : Nat) (st : St) : Tx :=
  bindOK (at32x_flash_unlock ora bk.sub0 k st) (fun _ k st =>
  bindOK (at32x_usd_unlock ora bk k st) (fun _ k st =>
  bindOK (t_wr32 ora k st (bk.sub0.reg_base + EFC_CTRL) (EFCCTRL_USDPRGM ||| EFCCTRL_USDULKS)) (fun _ k st =>
  bindOK (at32x_write_block ora bk.sub0 0 bk.usd_addr 8 k st) (fun _ k st =>
  bindOK (t_wr32 ora k st (bk.sub0.reg_base + EFC_CTRL) EFCCTRL_OPLK) (fun _ k st =>
  okTx k st)))))

/-- The protection-bit mutation loop of at32x_protect: for each block
index from first for fuel steps, clear the bit (enable protection) or
set it (disable protection) in the 32-bit protection word. -/
def at32x_prot_loop (set : Bool) : Nat → Nat → Nat → Nat
  | 0, _, p => p
  | fuel + 1, i, p =>
    let p2 := if set then p &&& (4294967295 ^^^ ((1 <<< i) % U32))
              else p ||| ((1 <<< i) % U32)
    at32x_prot_loop set fuel (i + 1) p2

/-- Protection update entry point (at32x_protect): fails immediately
when the target is not halted; erases the usd page (propagating a
failure), flips bits first..last of the freshly read protection word,
then writes the record back. -/
def at32x_protect (ora : Oracle) (halted : Bool) (bk : Bank) (set : Bool)
    (first last k : Nat) (st : St) : Tx :=
  if halted then
    let e := at32x_erase_usd_data ora bk k st
    if e.ret ≠ ERROR_OK then e
    else
      let st2 := { e.st with usd := { e.st.usd with
        protection := at32x_prot_loop set (last + 1 - first) first e.st.usd.protection } }
      let w := at32x_write_usd_data ora bk e.k st2
      { w with tr := e.tr ++ w.tr }
  else errTx ERROR_TARGET_NOT_HALTED k st

/-- Protection state readback (at32x_protect_check): read the EPPS
register of sub-bank 0 and mark block i protected exactly when bit i of
the value read is clear. -/
def at32x_protect_check (ora : Oracle) (bk : Bank) (nblocks k : Nat) (st : St) : Tx :=
  bindOK (t_rd32 ora k st (bk.sub0.reg_base + EFC_EPPS)) (fun v k st =>
  okTx k { st with prot := (List.range nblocks).map (fun i => v &&& ((1 <<< i) % U32) = 0) })

/-- The disable_access_protection command handler
(at32x_handle_disable_access_protection_command): after the halted
check, erase the usd page - on failure, log and return ERROR_OK with
the usd record as the erase left it - then set the access-protection
byte to the 0xA5 sentinel and write the record back; a write failure is
also logged and converted into an ERROR_OK return. -/
def at32x_handle_disable_access_protection (ora : Oracle) (halted : Bool)
    (bk : Bank) (k : Nat) (st : St) : Tx :=
  if halted then
    let e := at32x_erase_usd_data ora bk k st
    if e.ret ≠ ERROR_OK then { e with ret := ERROR_OK }
    else
      let st2 := { e.st with usd := { e.st.usd with fap := 0xA5 } }
      let w := at32x_write_usd_data ora bk e.k st2
      { ret := ERROR_OK, val := 0, k := w.k, tr := e.tr ++ w.tr, st := w.st }
  else errTx ERROR_TARGET_NOT_HALTED k st

/-- Initial driver state: zeroed usd record, no sector marked erased,
no protection flags. -/
def st0 : St := { usd := { fap := 0, ssb := 0, data := 0, protection := 0 }, marks := [], prot := [] }

/-- Oracle under which every transport operation succeeds and every
read returns 0 (busy never set, no error bits). -/
def oraOK : Oracle := fun _ => { ret := ERROR_OK, val := 0 }

/-- The AT32F403A CGT7 catalog entry: 1024 kB of flash in 2048-byte
sectors, split in two 512 KiB sub-banks. -/
def cgChip : ArteryChip := mkChip 0x70050346 1024 2048 at32f403a "CGT7"

/-- The bank state probing cgChip at the main-flash base produces. -/
def cgBank : Bank :=
  { base := 0x08000000,
    sub0 := { reg_base := 0x40022000, size := 0x80000, num_sectors := 256, base := 0x08000000 },
    sub1 := { reg_base := 0x40022040, size := 0x80000, num_sectors := 256, base := 0x08080000 },
    num_sectors := 512,
    usd_addr := 0x1FFFF800 }

/-- Projection extracting accelerator-run events from a trace. -/
def runAlgoOf : Ev → Option (Nat × Nat × Nat × Nat)
  | Ev.runAlgo a b c d => some (a, b, c, d)
  | _ => none

/-- Oracle under which every transport operation fails. -/
def oraFail : Oracle := fun _ => { ret := ERROR_FAIL, val := 0 }

/-- Oracle for the C4 scenario: every transport operation succeeds, and
the status read of the first sub-bank mass erase (the fifth operation)
returns the program-error bit with busy clear; every other read
returns 0. -/
def oraPrgmErr4 : Oracle := fun n => { ret := ERROR_OK, val := if n = 4 then EFCSTS_PRGMERR else 0 }

/-- A trace ends with the given event. -/
def endsWith (tr : List Ev) (e : Ev) : Prop := ∃ pre, tr = pre ++ [e]

/-- The AT32F421 C4T7 catalog entry: 16 kB of flash in 1024-byte
sectors. -/
def c8_chip : ArteryChip := mkChip 0x5001000C 16 1024 at32f421 "C4T7"

/-- Check of the amended claim C8 against the protection blocks probing
a catalog chip produces: their number is ceil(flash_size / 4096) capped
at 32; every non-final block spans 4096 bytes (two sectors only for the
2048-byte sector parts); when the cap is not reached the final block
also spans 4096 bytes, and when it is reached the final block size is
(num_sectors - 62) * sector_size evaluated in int arithmetic and stored
as uint32. -/
def c8_check (chip : ArteryChip) : Bool :=
  match at32x_probe_geometry chip BANK1_BASE_ADDR with
  | Except.error _ => false
  | Except.ok po =>
    let total := chip.flash_size_kb * 1024
    let pages := total / chip.sector_size
    let n := min ((total + 4095) / 4096) 32
    decide (po.prot_blocks.length = n ∧ n ≤ 32 ∧
      (∀ b ∈ po.prot_blocks.dropLast, b.2 = 4096) ∧
      (n < 32 → ∀ b ∈ po.prot_blocks, b.2 = 4096) ∧
      (n = 32 → po.prot_blocks.getLast? =
        some (31 * 4096, i32u (((pages : Int) - 31 * 2) * (chip.sector_size : Int)))))

/-- Check of claim C1 against the geometry a catalog chip resolves to at
the main-flash base address. -/
def c1_check (chip : ArteryChip) : Bool :=
  match at32_get_device_info chip BANK1_BASE_ADDR with
  | Except.error _ => false
  | Except.ok (s0, s1) =>
    let total := chip.flash_size_kb * 1024
    let thr := if 1024 < chip.flash_size_kb then 2097152 else 524288
    if total ≤ thr then
      decide (s0.size = total ∧ 0 < s0.size ∧ s1.size = 0)
    else
      decide (s0.size = thr ∧ 0 < s1.size ∧ s0.size + s1.size = total ∧
              s1.reg_base = s0.reg_base + 0x40)

/-- cgBank is exactly the bank state the probe path computes for cgChip,
so the concrete inputs below are reachable driver states. -/
theorem cgBank_reachable :
    (at32x_probe_geometry cgChip BANK1_BASE_ADDR).toOption.map (fun p => p.bank) = some cgBank := by
  decide

/-- C1: for every catalog chip at or below the single-bank threshold
(512 KiB, or 2 MiB when flash_size_kb > 1024) geometry resolution
produces exactly one non-empty sub-bank of exactly the total size; for
every chip above the threshold it produces two sub-banks whose sizes
sum to the total, sub-bank 0 sized at the threshold and sub-bank 1 with
a register aperture 0x40 above that of sub-bank 0. -/
theorem c1_main_flash_geometry :
    ∀ chip, chip ∈ known_artery_chips → c1_check chip = true := by
  have h : known_artery_chips.all c1_check = true := by decide
  intro c hc
  exact List.all_eq_true.mp h c hc

/-- Witness for C1 at the first catalog entry. -/
theorem c1_main_flash_geometry_witness :
    ({ pid := 0x70050242, flash_size_kb := 256, sector_size := 2048,
       type := at32f403a, suffix := "CCT7" } : ArteryChip) ∈ known_artery_chips ∧
    c1_check { pid := 0x70050242, flash_size_kb := 256, sector_size := 2048,
               type := at32f403a, suffix := "CCT7" } = true :=
  ⟨by decide, c1_main_flash_geometry _ (by decide)⟩


/-- C4: evaluation of mass erase at the failing input. Under oraPrgmErr4
the first sub-bank reports a program error during its mass erase, so
at32x_sub_bank_mass_erase fails with ERROR_FAIL, yet at32x_mass_erase
discards that code and reports ERROR_OK to its caller. -/
theorem c4_mass_erase_swallows_failure :
    (at32x_mass_erase oraPrgmErr4 true cgBank 0 st0).ret = ERROR_OK ∧
    (at32x_sub_bank_mass_erase oraPrgmErr4 cgBank.sub0 0 st0).ret = ERROR_FAIL ∧
    Ev.wr32 (0x40022000 + EFC_STS) (EFCSTS_EPPERR ||| EFCSTS_PRGMERR) ∈
      (at32x_mass_erase oraPrgmErr4 true cgBank 0 st0).tr := by
  decide

/-- C7: evaluation of at32x_erase at the failing input. Erasing the
single global sector 256 (the first sector of sub-bank 1) on the 1 MiB
chip succeeds and addresses the correct flash sector, but the is_erased
bookkeeping is written at the sub-bank-local index: the set of marked
global sector indices is [0], not [256]. -/
theorem c7_erase_marks_wrong_sector :
    (at32x_erase oraOK true cgBank 256 256 0 st0).ret = ERROR_OK ∧
    (at32x_erase oraOK true cgBank 256 256 0 st0).st.marks = [0] ∧
    Ev.wr32 (0x40022040 + EFC_ADDR) 0x08080000 ∈ (at32x_erase oraOK true cgBank 256 256 0 st0).tr := by
  decide

/-- C2: evaluation of at32x_write at the failing input. A 524290-byte
write at offset 0 of the 1 MiB chip spans the sub-bank boundary at
524288. The sub-bank walk performs two accelerator runs; both stage
their data from host position 0, so the two bytes programmed at
0x08080000 through sub-bank 1 are bytes 0 and 1 of the caller data
rather than bytes 524288 and 524289, which are never staged at all. -/
theorem c2_write_split_failing_input :
    (at32x_write oraOK true cgBank [] 0 524290 0 st0).ret = ERROR_OK ∧
    ((at32x_write oraOK true cgBank [] 0 524290 0 st0).tr.filterMap runAlgoOf)
      = [(0x40022000, 0, 0x08000000, 262144), (0x40022040, 0, 0x08080000, 1)] := by
  decide

/-- C3 counterexample: the claim that the final lock write is issued
unconditionally in erase sequences is false. Under the all-failing
oracle the unlock step of a sub-bank sector erase fails; the function
returns that failure immediately and its trace contains no OPLK write
to the control register. -/
theorem c3_erase_lock_counterexample :
    (at32x_sub_bank_erase oraFail cgBank.sub0 1 1 0 st0).ret = ERROR_FAIL ∧
    Ev.wr32 (0x40022000 + EFC_CTRL) EFCCTRL_OPLK ∉
      (at32x_sub_bank_erase oraFail cgBank.sub0 1 1 0 st0).tr := by
  decide

/-- C5: erase, write and protect called with the target not halted
return the not-halted error at once: the result is exactly the no-op
failure outcome, whose trace is empty and whose oracle position is the
entry position, so no register access reaches the target. -/
theorem c5_not_halted_no_access :
    ∀ (ora : Oracle) (bk : Bank) (mem : List Nat) (offset count first last : Nat)
      (set : Bool) (k : Nat) (st : St),
      at32x_erase ora false bk first last k st = errTx ERROR_TARGET_NOT_HALTED k st ∧
      at32x_write ora false bk mem offset count k st = errTx ERROR_TARGET_NOT_HALTED k st ∧
      at32x_protect ora false bk set first last k st = errTx ERROR_TARGET_NOT_HALTED k st ∧
      (errTx ERROR_TARGET_NOT_HALTED k st).tr = [] ∧
      (errTx ERROR_TARGET_NOT_HALTED k st).k = k := by
  intro ora bk mem offset count first last set k st
  exact ⟨rfl, rfl, rfl, rfl, rfl⟩

theorem bindOK_ret_ok (o : Tx) (f : Nat → Nat → St → Tx)
    (h : (bindOK o f).ret = ERROR_OK) : o.ret = ERROR_OK := by
  by_cases ho : o.ret = ERROR_OK
  · exact ho
  · unfold bindOK at h
    rw [if_neg ho] at h
    exact absurd h ho

theorem bindOK_eq_of_ok (o : Tx) (f : Nat → Nat → St → Tx) (h : o.ret = ERROR_OK) :
    bindOK o f = { f o.val o.k o.st with tr := o.tr ++ (f o.val o.k o.st).tr } := by
  unfold bindOK
  rw [if_pos h]

theorem endsWith_append (xs ys : List Ev) (e : Ev) (h : endsWith ys e) :
    endsWith (xs ++ ys) e := by
  obtain ⟨p, hp⟩ := h
  exact ⟨xs ++ p, by rw [hp, List.append_assoc]⟩

theorem endsWith_bindOK (o : Tx) (f : Nat → Nat → St → Tx) (e : Ev)
    (hok : (bindOK o f).ret = ERROR_OK)
    (hf : ∀ v k st, (f v k st).ret = ERROR_OK → endsWith (f v k st).tr e) :
    endsWith (bindOK o f).tr e := by
  have hu := bindOK_ret_ok o f hok
  rw [bindOK_eq_of_ok o f hu] at hok ⊢
  exact endsWith_append _ _ _ (hf _ _ _ hok)

theorem endsWith_lock_final (ora : Oracle) (k : Nat) (st : St) (addr v : Nat) :
    endsWith (bindOK (t_wr32 ora k st addr v) (fun _ k st => okTx k st)).tr (Ev.wr32 addr v) := by
  by_cases h : (t_wr32 ora k st addr v).ret = ERROR_OK
  · rw [bindOK_eq_of_ok _ _ h]
    exact ⟨[], by simp [t_wr32, okTx]⟩
  · unfold bindOK
    rw [if_neg h]
    exact ⟨[], by simp [t_wr32]⟩

/-- C3 amended: in at32x_sub_bank_write the final lock write is issued
unconditionally - the trace is always the body trace followed by the
OPLK control write - and an earlier failure code takes precedence over
the lock-write result; in at32x_sub_bank_erase (for a non-empty
sub-bank) the lock write is only guaranteed on success: a successful
return has the OPLK control write as its final transport event, while a
failing step may return without it, as the counterexample shows. -/
theorem c3_lock_discipline :
    (∀ (ora : Oracle) (sb : SubBank) (mem : List Nat) (pos offset count k : Nat) (st : St),
      (at32x_sub_bank_write ora sb mem pos offset count k st).tr =
        (at32x_sub_bank_write_body ora sb mem pos offset count k st).tr ++
        [Ev.wr32 (sb.reg_base + EFC_CTRL) EFCCTRL_OPLK]) ∧
    (∀ (ora : Oracle) (sb : SubBank) (mem : List Nat) (pos offset count k : Nat) (st : St),
      (at32x_sub_bank_write_body ora sb mem pos offset count k st).ret ≠ ERROR_OK →
      (at32x_sub_bank_write ora sb mem pos offset count k st).ret =
        (at32x_sub_bank_write_body ora sb mem pos offset count k st).ret) ∧
    (∀ (ora : Oracle) (sb : SubBank) (first last k : Nat) (st : St),
      sb.size ≠ 0 →
      (at32x_sub_bank_erase ora sb first last k st).ret = ERROR_OK →
      endsWith (at32x_sub_bank_erase ora sb first last k st).tr
        (Ev.wr32 (sb.reg_base + EFC_CTRL) EFCCTRL_OPLK)) := by
  refine ⟨?_, ?_, ?_⟩
  · intro ora sb mem pos offset count k st
    rfl
  · intro ora sb mem pos offset count k st h
    unfold at32x_sub_bank_write
    simp only [if_neg h]
  · intro ora sb first last k st hsz hok
    unfold at32x_sub_bank_erase at hok ⊢
    by_cases hm : first = 0 ∧ last = u32pred sb.num_sectors
    · rw [if_pos hm] at hok ⊢
      unfold at32x_sub_bank_mass_erase at hok ⊢
      rw [if_neg hsz] at hok ⊢
      refine endsWith_bindOK _ _ _ hok (fun v1 k1 st1 h1 => ?_)
      refine endsWith_bindOK _ _ _ h1 (fun v2 k2 st2 h2 => ?_)
      refine endsWith_bindOK _ _ _ h2 (fun v3 k3 st3 h3 => ?_)
      refine endsWith_bindOK _ _ _ h3 (fun v4 k4 st4 h4 => ?_)
      exact endsWith_lock_final ora k4 st4 _ _
    · rw [if_neg hm] at hok ⊢
      refine endsWith_bindOK _ _ _ hok (fun v1 k1 st1 h1 => ?_)
      refine endsWith_bindOK _ _ _ h1 (fun v2 k2 st2 h2 => ?_)
      exact endsWith_lock_final ora k2 st2 _ _

/-- Witness for C3 at concrete inputs: a failing body (all transport
operations fail) whose code survives the lock write, and a successful
single-sector erase whose trace ends with the lock write. -/
theorem c3_lock_discipline_witness :
    ((at32x_sub_bank_write_body oraFail cgBank.sub0 [] 0 0 2 0 st0).ret ≠ ERROR_OK ∧
     (at32x_sub_bank_write oraFail cgBank.sub0 [] 0 0 2 0 st0).ret =
       (at32x_sub_bank_write_body oraFail cgBank.sub0 [] 0 0 2 0 st0).ret) ∧
    (cgBank.sub0.size ≠ 0 ∧
     (at32x_sub_bank_erase oraOK cgBank.sub0 1 1 0 st0).ret = ERROR_OK ∧
     endsWith (at32x_sub_bank_erase oraOK cgBank.sub0 1 1 0 st0).tr
       (Ev.wr32 (cgBank.sub0.reg_base + EFC_CTRL) EFCCTRL_OPLK)) :=
  ⟨⟨by decide, c3_lock_discipline.2.1 oraFail cgBank.sub0 [] 0 0 2 0 st0 (by decide)⟩,
   ⟨by decide, by decide,
    c3_lock_discipline.2.2 oraOK cgBank.sub0 1 1 0 st0 (by decide) (by decide)⟩⟩


/-- C6: a 2-byte-misaligned offset makes at32x_write fail with the
alignment error as a pure no-op (empty trace, oracle position
unchanged); an odd byte count makes it program count + 1 bytes from a
fresh copy of the caller data with a single 0xFF byte appended, the
caller buffer itself being read only. -/
theorem c6_write_alignment_padding :
    ∀ (ora : Oracle) (bk : Bank) (mem : List Nat) (offset count k : Nat) (st : St),
      (offset % 2 = 1 →
        at32x_write ora true bk mem offset count k st =
          errTx ERROR_FLASH_DST_BREAKS_ALIGNMENT k st) ∧
      (offset % 2 = 0 → count % 2 = 1 →
        at32x_write ora true bk mem offset count k st =
          at32x_write_loop ora (mem.take count ++ [0xff]) [bk.sub0, bk.sub1] 0 offset (count + 1) k st ∧
        (count ≤ mem.length → (mem.take count ++ [0xff]).length = count + 1) ∧
        (mem.take count ++ [0xff]).getLast? = some 0xff) := by
  intro ora bk mem offset count k st
  constructor
  · intro h1
    unfold at32x_write
    simp [h1]
  · intro h0 h1
    refine ⟨?_, ?_, ?_⟩
    · unfold at32x_write
      simp [h0, h1]
    · intro hlen
      simp [List.length_append, List.length_take, Nat.min_eq_left hlen]
    · simp [List.getLast?_concat]

/-- Witness for C6: a misaligned 3-byte write at offset 1 fails with no
device access, and an aligned odd-count write proceeds with the padded
copy of the data. -/
theorem c6_write_alignment_padding_witness :
    ((1 : Nat) % 2 = 1 ∧
     at32x_write oraOK true cgBank [1, 2, 3] 1 3 0 st0 =
       errTx ERROR_FLASH_DST_BREAKS_ALIGNMENT 0 st0) ∧
    ((0 : Nat) % 2 = 0 ∧ (3 : Nat) % 2 = 1 ∧
     (at32x_write oraOK true cgBank [1, 2, 3] 0 3 0 st0 =
        at32x_write_loop oraOK (([1, 2, 3] : List Nat).take 3 ++ [0xff])
          [cgBank.sub0, cgBank.sub1] 0 0 4 0 st0 ∧
      ((3 : Nat) ≤ ([1, 2, 3] : List Nat).length →
        (([1, 2, 3] : List Nat).take 3 ++ [0xff]).length = 4) ∧
      (([1, 2, 3] : List Nat).take 3 ++ [0xff]).getLast? = some 0xff)) :=
  ⟨⟨by decide, (c6_write_alignment_padding oraOK cgBank [1, 2, 3] 1 3 0 st0).1 (by decide)⟩,
   ⟨by decide, by decide,
    (c6_write_alignment_padding oraOK cgBank [1, 2, 3] 0 3 0 st0).2 (by decide) (by decide)⟩⟩

/-- C9: on a halted target, when the erase-usd step fails the
disable-access-protection command returns ERROR_OK with exactly the
state the erase left (the access-protection byte is not set to the
sentinel); when the erase succeeds, the byte is set to 0xA5, the record
is written back, and the command returns ERROR_OK whether or not that
write succeeded. -/
theorem c9_disable_access_protection :
    ∀ (ora : Oracle) (bk : Bank) (k : Nat) (st : St),
      ((at32x_erase_usd_data ora bk k st).ret ≠ ERROR_OK →
        at32x_handle_disable_access_protection ora true bk k st =
          { at32x_erase_usd_data ora bk k st with ret := ERROR_OK }) ∧
      ((at32x_erase_usd_data ora bk k st).ret = ERROR_OK →
        at32x_handle_disable_access_protection ora true bk k st =
          (let e := at32x_erase_usd_data ora bk k st
           let w := at32x_write_usd_data ora bk e.k
             { e.st with usd := { e.st.usd with fap := 0xA5 } }
           { ret := ERROR_OK, val := 0, k := w.k, tr := e.tr ++ w.tr, st := w.st })) := by
  intro ora bk k st
  constructor
  · intro h
    simp [at32x_handle_disable_access_protection, h]
  · intro h
    simp [at32x_handle_disable_access_protection, h]

/-- Witness for C9: under the all-failing oracle the erase-usd step
fails and the command still returns OK with the erase-result state;
under the all-succeeding oracle the erase succeeds and the sentinel is
written. -/
theorem c9_disable_access_protection_witness :
    ((at32x_erase_usd_data oraFail cgBank 0 st0).ret ≠ ERROR_OK ∧
     at32x_handle_disable_access_protection oraFail true cgBank 0 st0 =
       { at32x_erase_usd_data oraFail cgBank 0 st0 with ret := ERROR_OK }) ∧
    ((at32x_erase_usd_data oraOK cgBank 0 st0).ret = ERROR_OK ∧
     at32x_handle_disable_access_protection oraOK true cgBank 0 st0 =
       (let e := at32x_erase_usd_data oraOK cgBank 0 st0
        let w := at32x_write_usd_data oraOK cgBank e.k
          { e.st with usd := { e.st.usd with fap := 0xA5 } }
        { ret := ERROR_OK, val := 0, k := w.k, tr := e.tr ++ w.tr, st := w.st })) :=
  ⟨⟨by decide, (c9_disable_access_protection oraFail cgBank 0 st0).1 (by decide)⟩,
   ⟨by decide, (c9_disable_access_protection oraOK cgBank 0 st0).2 (by decide)⟩⟩

/-- C8 counterexample: the claim that every protection block covers two
sectors of address range fails on the 16 kB, 1024-byte-sector AT32F421
C4T7: its first protection block spans 4096 bytes while two sectors
span 2048 bytes. -/
theorem c8_prot_block_counterexample :
    c8_chip ∈ known_artery_chips ∧
    (at32x_probe_geometry c8_chip BANK1_BASE_ADDR).toOption.map
      (fun p => p.prot_blocks.getD 0 (0, 0)) = some (0, 4096) ∧
    2 * c8_chip.sector_size = 2048 ∧ (2048 : Nat) ≠ 4096 := by
  decide

set_option maxRecDepth 40000 in
/-- C8 amended: for every catalog chip, probing yields
min(32, ceil(flash_size / 4096)) protection blocks; every non-final
block spans 4096 bytes (two sectors of address range exactly for the
2048-byte-sector parts), and when the 32-block cap is reached the final
block size is (num_sectors - 62) * sector_size in int arithmetic stored
as uint32. -/
theorem c8_prot_blocks_amended :
    ∀ chip, chip ∈ known_artery_chips → c8_check chip = true := by
  have h : known_artery_chips.all c8_check = true := by decide
  intro c hc
  exact List.all_eq_true.mp h c hc

/-- Witness for C8 at the counterexample chip. -/
theorem c8_prot_blocks_amended_witness :
    c8_chip ∈ known_artery_chips ∧ c8_check c8_chip = true :=
  ⟨by decide, c8_prot_blocks_amended c8_chip (by decide)⟩

theorem prot_step_testBit (set : Bool) (p start i : Nat) (hs : start < 32) (hi : i < 32) :
    (if set then p &&& (4294967295 ^^^ ((1 <<< start) % U32))
     else p ||| ((1 <<< start) % U32)).testBit i
    = if i = start then !set else p.testBit i := by
  have hmask : (1 <<< start) % U32 = 2 ^ start := by
    rw [Nat.one_shiftLeft]
    exact Nat.mod_eq_of_lt (Nat.pow_lt_pow_right (by norm_num) hs)
  have hones : (4294967295 : Nat) = 2 ^ 32 - 1 := by norm_num
  cases set with
  | true =>
    simp only [if_true, hmask, hones, Nat.testBit_land, Nat.testBit_xor,
      Nat.testBit_two_pow_sub_one, Bool.not_true]
    by_cases hieq : i = start
    · subst hieq
      simp [Nat.testBit_two_pow_self, hi]
    · simp [Nat.testBit_two_pow_of_ne (fun h => hieq h.symm), hi, hieq]
  | false =>
    simp only [if_false, hmask, Nat.testBit_lor, Bool.not_false]
    by_cases hieq : i = start
    · subst hieq
      simp [Nat.testBit_two_pow_self]
    · simp [Nat.testBit_two_pow_of_ne (fun h => hieq h.symm), hieq]

theorem prot_loop_testBit (set : Bool) :
    ∀ (fuel start p i : Nat), start + fuel ≤ 32 → i < 32 →
      (at32x_prot_loop set fuel start p).testBit i =
        if start ≤ i ∧ i < start + fuel then !set else p.testBit i := by
  intro fuel
  induction fuel with
  | zero =>
    intro start p i hf hi
    rw [if_neg (by omega)]
    rfl
  | succ f ih =>
    intro start p i hf hi
    show (at32x_prot_loop set f (start + 1) _).testBit i = _
    rw [ih (start + 1) _ i (by omega) hi]
    rw [prot_step_testBit set p start i (by omega) hi]
    split_ifs <;> first | rfl | omega

/-- C10: the sector write-protection bitmap is active-low. Enabling
protection over blocks first..last clears exactly bits first..last of
the in-memory protection word and disabling sets them; at32x_protect
applies exactly this flip to the freshly read word between the usd
erase and the usd write-back; and at32x_protect_check reads the EPPS
register of sub-bank 0 and reports a block protected exactly when its
bit of the value read is 0. -/
theorem c10_protection_active_low :
    (∀ (set : Bool) (p first last i : Nat), first ≤ last → last < 32 → i < 32 →
      (at32x_prot_loop set (last + 1 - first) first p).testBit i =
        if first ≤ i ∧ i ≤ last then !set else p.testBit i) ∧
    (∀ (ora : Oracle) (bk : Bank) (set : Bool) (first last k : Nat) (st : St),
      (at32x_erase_usd_data ora bk k st).ret = ERROR_OK →
      at32x_protect ora true bk set first last k st =
        (let e := at32x_erase_usd_data ora bk k st
         let w := at32x_write_usd_data ora bk e.k
           { e.st with usd := { e.st.usd with
             protection := at32x_prot_loop set (last + 1 - first) first e.st.usd.protection } }
         { w with tr := e.tr ++ w.tr })) ∧
    (∀ (ora : Oracle) (bk : Bank) (n k : Nat) (st : St) (i : Nat),
      (ora k).ret = ERROR_OK → i < n → i < 32 →
      ((at32x_protect_check ora bk n k st).tr = [Ev.rd32 (bk.sub0.reg_base + EFC_EPPS)] ∧
       (at32x_protect_check ora bk n k st).st.prot.getD i false =
         !(ora k).val.testBit i)) := by
  refine ⟨?_, ?_, ?_⟩
  · intro set p first last i h1 h2 h3
    rw [prot_loop_testBit set (last + 1 - first) first p i (by omega) h3]
    split_ifs <;> first | rfl | omega
  · intro ora bk set first last k st h
    simp [at32x_protect, h]
  · intro ora bk n k st i hok hi hi32
    have hr : (t_rd32 ora k st (bk.sub0.reg_base + EFC_EPPS)).ret = ERROR_OK := by
      simp [t_rd32, hok]
    have hmask : (1 <<< i) % U32 = 2 ^ i := by
      rw [Nat.one_shiftLeft]
      exact Nat.mod_eq_of_lt (Nat.pow_lt_pow_right (by norm_num) hi32)
    unfold at32x_protect_check
    rw [bindOK_eq_of_ok _ _ hr]
    constructor
    · simp [t_rd32, okTx]
    · simp [t_rd32, okTx, List.getD_eq_getElem?_getD, List.getElem?_map,
        List.getElem?_range, hi, hmask, Nat.and_two_pow]

/-- Witness for C10 at concrete inputs: enabling protection over blocks
1..2 clears bit 1 of the word 0xF, a protect call on the halted 1 MiB
bank with a successful erase phase reduces to the write-back of the
flipped word, and a protect-check readback against a successful read
marks block 2 according to bit 2 of the value read. -/
theorem c10_protection_active_low_witness :
    ((1 : Nat) ≤ 2 ∧ (2 : Nat) < 32 ∧ (1 : Nat) < 32 ∧
     (at32x_prot_loop true (2 + 1 - 1) 1 0xF).testBit 1 =
       if 1 ≤ 1 ∧ 1 ≤ 2 then !true else (0xF : Nat).testBit 1) ∧
    ((at32x_erase_usd_data oraOK cgBank 0 st0).ret = ERROR_OK ∧
     at32x_protect oraOK true cgBank true 1 2 0 st0 =
       (let e := at32x_erase_usd_data oraOK cgBank 0 st0
        let w := at32x_write_usd_data oraOK cgBank e.k
          { e.st with usd := { e.st.usd with
            protection := at32x_prot_loop true (2 + 1 - 1) 1 e.st.usd.protection } }
        { w with tr := e.tr ++ w.tr })) ∧
    ((oraOK 0).ret = ERROR_OK ∧ (2 : Nat) < 4 ∧ (2 : Nat) < 32 ∧
     ((at32x_protect_check oraOK cgBank 4 0 st0).tr =
        [Ev.rd32 (cgBank.sub0.reg_base + EFC_EPPS)] ∧
      (at32x_protect_check oraOK cgBank 4 0 st0).st.prot.getD 2 false =
        !(oraOK 0).val.testBit 2)) :=
  ⟨⟨by decide, by decide, by decide,
    c10_protection_active_low.1 true 0xF 1 2 1 (by decide) (by decide) (by decide)⟩,
   ⟨by decide, c10_protection_active_low.2.1 oraOK cgBank true 1 2 0 st0 (by decide)⟩,
   ⟨by decide, by decide, by decide,
    c10_protection_active_low.2.2 oraOK cgBank 4 0 st0 2 (by decide) (by decide) (by decide)⟩⟩

end At32
